import Mathlib

/-!
Shallow embedding of the session layer of the `rodbus` client
(`src/session.rs`): value and range types, validation rules, the binary
coil-state codec, and the generic dispatch algorithm of
`Session::make_service_call` together with the callback variant
`CallbackSession::start_request`.

Machine integers (`u8`, `u16`, `u32`) are modelled as `Nat` with explicit
bounds stated as hypotheses where they matter; the widening to `u32` in
`check_validity` becomes ordinary `Nat` arithmetic, which cannot wrap
(matching the source's intent of overflow-free summation, and exact on all
in-range inputs).
-/

namespace Rodbus

/-- Embeds `error::details::InvalidRequest` (declared outside `src/session.rs`;
variants and payloads as used at the three `return Err(...)` sites of
`AddressRange::check_validity`). -/
inductive InvalidRequest where
  | CountOfZero : InvalidRequest
  | AddressOverflow (start count : Nat) : InvalidRequest
  | CountTooBigForType (count max : Nat) : InvalidRequest
  deriving DecidableEq, Repr

/-- Embeds `error::details::ResponseParseError` (declared outside
`src/session.rs`; the variant used by `CoilState::from_u16`). -/
inductive ResponseParseError where
  | UnknownCoilState (value : Nat) : ResponseParseError
  deriving DecidableEq, Repr

/-- Modelled from the spec: the call-level error type `error::Error` /
`ErrorKind` is declared outside `src/session.rs`. The spec's error
taxonomy (§7) has synchronous validation errors, a uniform shutdown
error, and opaque transport/decode errors forwarded unchanged; the
opaque remainder is represented by an abstract tag. -/
inductive Error where
  | validation (e : InvalidRequest) : Error
  | Shutdown : Error
  | transport (tag : Nat) : Error
  deriving DecidableEq, Repr

/-- Embeds `UnitId` — an 8-bit device identifier (field `id : u8`). -/
structure UnitId where
  id : Nat
  deriving DecidableEq, Repr

namespace UnitId

/-- Embeds `UnitId::new`. -/
def new (unit_id : Nat) : UnitId := ⟨unit_id⟩

/-- Embeds `UnitId::default`. -/
def default : UnitId := ⟨0xFF⟩

/-- Embeds `UnitId::value`. -/
def value (u : UnitId) : Nat := u.id

end UnitId

/-- Embeds `AddressRange { start: u16, count: u16 }`. -/
structure AddressRange where
  start : Nat
  count : Nat
  deriving DecidableEq, Repr

namespace constants

/-- Embeds `constants::ON : u16 = 0xFF00`. -/
def ON : Nat := 0xFF00

/-- Embeds `constants::OFF : u16 = 0x0000`. -/
def OFF : Nat := 0x0000

end constants

/-- Embeds `CoilState` — the two-valued coil state, `#[repr(u16)]` with
discriminants `ON` and `OFF`. -/
inductive CoilState where
  | On : CoilState
  | Off : CoilState
  deriving DecidableEq, Repr

namespace CoilState

/-- Embeds `CoilState::from_bool`. -/
def from_bool (value : Bool) : CoilState :=
  if value then CoilState.On else CoilState.Off

/-- Embeds `CoilState::from_u16`. -/
def from_u16 (value : Nat) : Except ResponseParseError CoilState :=
  if value = constants.ON then Except.ok CoilState.On
  else if value = constants.OFF then Except.ok CoilState.Off
  else Except.error (ResponseParseError.UnknownCoilState value)

/-- Embeds `CoilState::to_u16` — the `repr(u16)` discriminant of the variant. -/
def to_u16 : CoilState → Nat
  | CoilState.On => constants.ON
  | CoilState.Off => constants.OFF

end CoilState

/-- Embeds `RegisterValue { value: u16 }`. -/
structure RegisterValue where
  value : Nat
  deriving DecidableEq, Repr

/-- Embeds `RegisterValue::new`. -/
def RegisterValue.new (value : Nat) : RegisterValue := ⟨value⟩

/-- Embeds `Indexed<T> { index: u16, value: T }`. -/
structure Indexed (T : Type) where
  index : Nat
  value : T
  deriving DecidableEq, Repr

/-- Embeds `Indexed::<T>::new`. -/
def Indexed.new {T : Type} (index : Nat) (value : T) : Indexed T :=
  ⟨index, value⟩

namespace AddressRange

/-- Embeds `AddressRange::MAX_REGISTERS`. -/
def MAX_REGISTERS : Nat := 125

/-- Embeds `AddressRange::MAX_BINARY_BITS`. -/
def MAX_BINARY_BITS : Nat := 2000

/-- Embeds `AddressRange::new` — bare construction, no checks. -/
def new (start count : Nat) : AddressRange := ⟨start, count⟩

/-- Embeds `AddressRange::check_validity`. The source widens `start` and `count`
to `u32` before computing `start + (count - 1)`; here the arithmetic is on
`Nat`, which agrees with the `u32` computation on all `u16` inputs. -/
def check_validity (r : AddressRange) (max_count : Nat) :
    Except InvalidRequest Unit :=
  if r.count = 0 then
    Except.error InvalidRequest.CountOfZero
  else
    let last_address := r.start + (r.count - 1)
    if last_address > 65535 then
      Except.error (InvalidRequest.AddressOverflow r.start r.count)
    else if r.count > max_count then
      Except.error (InvalidRequest.CountTooBigForType r.count max_count)
    else
      Except.ok ()

/-- Embeds `AddressRange::check_validity_for_bits`. -/
def check_validity_for_bits (r : AddressRange) :
    Except InvalidRequest Unit :=
  r.check_validity MAX_BINARY_BITS

/-- Embeds `AddressRange::check_validity_for_registers`. -/
def check_validity_for_registers (r : AddressRange) :
    Except InvalidRequest Unit :=
  r.check_validity MAX_REGISTERS

end AddressRange

/-- State of the shared outbound `mpsc` request queue, seen from the
producer side: whether the consumer (the transport worker) is still
attached, and the requests enqueued so far, in arrival order. `send`
succeeds and appends exactly when the consumer is attached. -/
structure QueueState (Request : Type) where
  consumerAlive : Bool
  pending : List Request
  deriving DecidableEq, Repr

/-- Embeds `channel::ServiceRequest<S>` (declared outside `src/session.rs`):
the transaction envelope built by `ServiceRequest::new(id, timeout,
request, tx)` — unit address, response timeout, service-specific payload.
The oneshot writer end `tx` is not data; its fate is modelled by
`CompletionOutcome`. -/
structure ServiceRequest (Req : Type) where
  id : UnitId
  timeout : Nat
  request : Req
  deriving DecidableEq, Repr

/-- What happens to a transaction's oneshot completion signal after the
envelope is enqueued: either the transport worker fires it with an inner
result, or the writer end is dropped without firing (`rx.await` then
fails). -/
inductive CompletionOutcome (Resp : Type) where
  | delivered (r : Except Error Resp) : CompletionOutcome Resp
  | dropped : CompletionOutcome Resp

/-- The `service::traits::Service` capability contract (declared outside
`src/session.rs`), as consumed by `make_service_call`: associated request
and response types, `check_request_validity`, and `create_request`
wrapping an envelope into the queue's element type. -/
structure Service (Req Resp Request : Type) where
  check_request_validity : Req → Except InvalidRequest Unit
  create_request : ServiceRequest Req → Request

/-- Embeds `Session { id, response_timeout, request_channel }`. The queue writer
`request_channel` is represented by threading an explicit `QueueState`
through each call; cloned handles share one queue, which the explicit
state captures directly. -/
structure Session where
  id : UnitId
  response_timeout : Nat
  deriving DecidableEq, Repr

/-- Embeds `Session::new`. -/
def Session.new (id : UnitId) (response_timeout : Nat) : Session :=
  ⟨id, response_timeout⟩

/-- Embeds `Session::make_service_call::<S>`, line by line:
`S::check_request_validity(&request)?` returns any validation error with
no queue interaction; otherwise the envelope
`S::create_request(ServiceRequest::new(id, timeout, request, tx))` is
sent on `request_channel`, a failed send (consumer gone) becoming
`ErrorKind::Shutdown`; finally `rx.await` yields the delivered inner
result verbatim, or `ErrorKind::Shutdown` if the writer end was dropped.
Returns the call's result together with the queue state after the call. -/
def make_service_call {Req Resp Request : Type}
    (S : Service Req Resp Request) (session : Session)
    (queue : QueueState Request) (request : Req)
    (outcome : CompletionOutcome Resp) :
    Except Error Resp × QueueState Request :=
  match S.check_request_validity request with
  | Except.error e => (Except.error (Error.validation e), queue)
  | Except.ok _ =>
    let envelope := S.create_request
      ⟨session.id, session.response_timeout, request⟩
    if queue.consumerAlive then
      let queue' : QueueState Request :=
        ⟨queue.consumerAlive, queue.pending ++ [envelope]⟩
      match outcome with
      | CompletionOutcome.delivered r => (r, queue')
      | CompletionOutcome.dropped => (Except.error Error.Shutdown, queue')
    else
      (Except.error Error.Shutdown, queue)

/-- Embeds `CallbackSession { inner: Session }`. -/
structure CallbackSession where
  inner : Session
  deriving DecidableEq, Repr

/-- Embeds `CallbackSession::new`. -/
def CallbackSession.new (inner : Session) : CallbackSession := ⟨inner⟩

/-- Trace of a spawned unit of work that may invoke a result handler
(`Handler::handle`): each `invokeThen` is one handler invocation carrying
one result value. -/
inductive Task (R : Type) where
  | done : Task R
  | invokeThen (result : R) (rest : Task R) : Task R

/-- The sequence of handler invocations a task performs, in order. -/
def Task.invocations {R : Type} : Task R → List R
  | Task.done => []
  | Task.invokeThen r rest => r :: rest.invocations

/-- Embeds `CallbackSession::start_request::<S>`: clones the inner session and
spawns `callback.handle(session.make_service_call::<S>(request).await)`.
The value returned is the spawned task's trace — the calling context
itself returns immediately with no synchronous result. Also returns the
queue state after the spawned call ran. -/
def start_request {Req Resp Request : Type}
    (S : Service Req Resp Request) (cs : CallbackSession)
    (queue : QueueState Request) (request : Req)
    (outcome : CompletionOutcome Resp) :
    Task (Except Error Resp) × QueueState Request :=
  let session := cs.inner
  let call := make_service_call S session queue request outcome
  (Task.invokeThen call.1 Task.done, call.2)

section SessionOperations

variable {Request : Type}

/-- Modelled from the spec: the `ReadCoils` service implementation
(`service::services`, outside `src/session.rs`). Per §4.1/§4.3 its
validity check is the bit-range check; `wrap` stands for its
`create_request` envelope constructor into the queue's element type. -/
def ReadCoils (wrap : ServiceRequest AddressRange → Request) :
    Service AddressRange (List (Indexed Bool)) Request :=
  ⟨fun r => r.check_validity_for_bits, wrap⟩

/-- Modelled from the spec: the `ReadDiscreteInputs` service
implementation (outside `src/session.rs`); bit-range validity check. -/
def ReadDiscreteInputs (wrap : ServiceRequest AddressRange → Request) :
    Service AddressRange (List (Indexed Bool)) Request :=
  ⟨fun r => r.check_validity_for_bits, wrap⟩

/-- Modelled from the spec: the `ReadHoldingRegisters` service
implementation (outside `src/session.rs`); register-range validity
check. -/
def ReadHoldingRegisters (wrap : ServiceRequest AddressRange → Request) :
    Service AddressRange (List (Indexed Nat)) Request :=
  ⟨fun r => r.check_validity_for_registers, wrap⟩

/-- Modelled from the spec: the `ReadInputRegisters` service
implementation (outside `src/session.rs`); register-range validity
check. -/
def ReadInputRegisters (wrap : ServiceRequest AddressRange → Request) :
    Service AddressRange (List (Indexed Nat)) Request :=
  ⟨fun r => r.check_validity_for_registers, wrap⟩

/-- Modelled from the spec: the `WriteSingleCoil` service implementation
(outside `src/session.rs`). §4.1 ties range validation only to the read
operations; the single-value write's check is modelled as an arbitrary
validity predicate `check` supplied by the capability. -/
def WriteSingleCoil
    (check : Indexed CoilState → Except InvalidRequest Unit)
    (wrap : ServiceRequest (Indexed CoilState) → Request) :
    Service (Indexed CoilState) (Indexed CoilState) Request :=
  ⟨check, wrap⟩

/-- Modelled from the spec: the `WriteSingleRegister` service
implementation (outside `src/session.rs`); arbitrary validity check, as
for `WriteSingleCoil`. -/
def WriteSingleRegister
    (check : Indexed RegisterValue → Except InvalidRequest Unit)
    (wrap : ServiceRequest (Indexed RegisterValue) → Request) :
    Service (Indexed RegisterValue) (Indexed RegisterValue) Request :=
  ⟨check, wrap⟩

/-- Embeds `Session::read_coils`. -/
def Session.read_coils (wrap : ServiceRequest AddressRange → Request)
    (session : Session) (queue : QueueState Request)
    (range : AddressRange)
    (outcome : CompletionOutcome (List (Indexed Bool))) :
    Except Error (List (Indexed Bool)) × QueueState Request :=
  make_service_call (ReadCoils wrap) session queue range outcome

/-- Embeds `CallbackSession::read_coils`. -/
def CallbackSession.read_coils
    (wrap : ServiceRequest AddressRange → Request)
    (cs : CallbackSession) (queue : QueueState Request)
    (range : AddressRange)
    (outcome : CompletionOutcome (List (Indexed Bool))) :
    Task (Except Error (List (Indexed Bool))) × QueueState Request :=
  start_request (ReadCoils wrap) cs queue range outcome

end SessionOperations

/-- Reference definition of range validation, written from the spec's
words for comparison with the source's `check_validity`: `count == 0` is
`CountOfZero`; otherwise `start + count − 1`, summed in a widened type
that cannot wrap, exceeding 65535 is `AddressOverflow (start, count)`;
otherwise `count > max_count` is `CountTooBigForType (count, max_count)`;
otherwise Ok. -/
def check_validity_ref (r : AddressRange) (max_count : Nat) :
    Except InvalidRequest Unit :=
  if r.count = 0 then
    Except.error InvalidRequest.CountOfZero
  else if r.start + r.count - 1 > 65535 then
    Except.error (InvalidRequest.AddressOverflow r.start r.count)
  else if r.count > max_count then
    Except.error (InvalidRequest.CountTooBigForType r.count max_count)
  else
    Except.ok ()

/-- C1: for every Session operation (any service capability), if the
request payload fails its validity check, `make_service_call` returns
that validation error immediately and the shared request queue is left
unchanged. -/
theorem validation_failure_short_circuits
    {Req Resp Request : Type} (S : Service Req Resp Request)
    (session : Session) (queue : QueueState Request) (request : Req)
    (outcome : CompletionOutcome Resp) (e : InvalidRequest)
    (h : S.check_request_validity request = Except.error e) :
    make_service_call S session queue request outcome =
      (Except.error (Error.validation e), queue) := by
  simp [make_service_call, h]

/-- Witness for C1: a zero-count read-coils request fails validation with
`CountOfZero` and leaves the queue untouched. -/
theorem validation_failure_short_circuits_witness :
    make_service_call
        (ReadCoils (fun s => s) :
          Service AddressRange (List (Indexed Bool))
            (ServiceRequest AddressRange))
        (Session.new UnitId.default 1000) ⟨true, []⟩
        (AddressRange.new 0 0) CompletionOutcome.dropped =
      (Except.error (Error.validation InvalidRequest.CountOfZero),
        ⟨true, []⟩) :=
  validation_failure_short_circuits _ _ _ _ _ _ rfl

/-- C2: for every Session operation whose payload passes validation, both
failure modes of the queue's consumer — torn down at enqueue time, or the
completion signal's writer dropped without firing while the call waits —
make the call return the same uniform shutdown error instead of hanging. -/
theorem consumer_teardown_yields_shutdown
    {Req Resp Request : Type} (S : Service Req Resp Request)
    (session : Session) (queue : QueueState Request) (request : Req)
    (h : S.check_request_validity request = Except.ok ()) :
    (queue.consumerAlive = false →
      ∀ outcome : CompletionOutcome Resp,
        make_service_call S session queue request outcome =
          (Except.error Error.Shutdown, queue)) ∧
    (queue.consumerAlive = true →
      (make_service_call S session queue request
          CompletionOutcome.dropped).1 =
        Except.error Error.Shutdown) := by
  constructor
  · intro hdead outcome
    simp [make_service_call, h, hdead]
  · intro halive
    simp [make_service_call, h, halive]

/-- Witness for C2: a valid one-coil read against a torn-down queue fails
with the shutdown error, and against a live queue whose completion writer
is dropped it also fails with the shutdown error. -/
theorem consumer_teardown_yields_shutdown_witness :
    make_service_call
        (ReadCoils (fun s => s) :
          Service AddressRange (List (Indexed Bool))
            (ServiceRequest AddressRange))
        (Session.new UnitId.default 1000) ⟨false, []⟩
        (AddressRange.new 0 1) CompletionOutcome.dropped =
      (Except.error Error.Shutdown, ⟨false, []⟩) ∧
    (make_service_call
        (ReadCoils (fun s => s) :
          Service AddressRange (List (Indexed Bool))
            (ServiceRequest AddressRange))
        (Session.new UnitId.default 1000) ⟨true, []⟩
        (AddressRange.new 0 1) CompletionOutcome.dropped).1 =
      Except.error Error.Shutdown :=
  ⟨(consumer_teardown_yields_shutdown _ _ _ _ rfl).1 rfl _,
    (consumer_teardown_yields_shutdown _ _ _ _ rfl).2 rfl⟩

/-- C3: for every Session operation, when validation succeeds, the
enqueue succeeds (consumer alive), and the transport worker delivers an
inner result through the completion signal, the call returns exactly that
inner result — success payload or error — unmodified; the only queue
effect is appending this call's single envelope. -/
theorem delivered_result_returned_verbatim
    {Req Resp Request : Type} (S : Service Req Resp Request)
    (session : Session) (queue : QueueState Request) (request : Req)
    (r : Except Error Resp)
    (h : S.check_request_validity request = Except.ok ())
    (halive : queue.consumerAlive = true) :
    make_service_call S session queue request
        (CompletionOutcome.delivered r) =
      (r, ⟨true, queue.pending ++
        [S.create_request
          ⟨session.id, session.response_timeout, request⟩]⟩) := by
  simp [make_service_call, h, halive]

/-- Witness for C3: a delivered success payload (one indexed coil value)
comes back verbatim, and a delivered transport error also comes back
verbatim. -/
theorem delivered_result_returned_verbatim_witness :
    make_service_call
        (ReadCoils (fun s => s) :
          Service AddressRange (List (Indexed Bool))
            (ServiceRequest AddressRange))
        (Session.new (UnitId.new 7) 1000) ⟨true, []⟩
        (AddressRange.new 2 1)
        (CompletionOutcome.delivered
          (Except.ok [Indexed.new 2 true])) =
      (Except.ok [Indexed.new 2 true],
        ⟨true, [⟨UnitId.new 7, 1000, AddressRange.new 2 1⟩]⟩) :=
  delivered_result_returned_verbatim _ _ _ _ _ rfl rfl

/-- C4: `check_validity` coincides with the spec's reference definition
(`check_validity_ref`) on every AddressRange and every max_count, checks
applied in the stated precedence order with the sum computed without
wrapping. -/
theorem check_validity_matches_reference
    (r : AddressRange) (max_count : Nat) :
    r.check_validity max_count = check_validity_ref r max_count := by
  unfold AddressRange.check_validity check_validity_ref
  rcases r with ⟨start, count⟩
  by_cases h0 : count = 0
  · simp [h0]
  · have : start + count - 1 = start + (count - 1) := by omega
    simp [h0, this]

/-- C5: every register range with `count ∈ [1, 125]` and
`start + count − 1 ≤ 65535` passes `check_validity_for_registers`, and
every bit range with `count ∈ [1, 2000]` under the same overflow rule
passes `check_validity_for_bits`. -/
theorem in_bounds_ranges_validate
    (start count : Nat) :
    (1 ≤ count ∧ count ≤ 125 ∧ start + count - 1 ≤ 65535 →
      AddressRange.check_validity_for_registers ⟨start, count⟩ =
        Except.ok ()) ∧
    (1 ≤ count ∧ count ≤ 2000 ∧ start + count - 1 ≤ 65535 →
      AddressRange.check_validity_for_bits ⟨start, count⟩ =
        Except.ok ()) := by
  constructor
  · rintro ⟨h1, h2, h3⟩
    unfold AddressRange.check_validity_for_registers
      AddressRange.check_validity AddressRange.MAX_REGISTERS
    have hne : count ≠ 0 := by omega
    have hov : ¬ start + (count - 1) > 65535 := by omega
    have hbig : ¬ count > 125 := by omega
    simp [hne, hov, hbig]
  · rintro ⟨h1, h2, h3⟩
    unfold AddressRange.check_validity_for_bits
      AddressRange.check_validity AddressRange.MAX_BINARY_BITS
    have hne : count ≠ 0 := by omega
    have hov : ¬ start + (count - 1) > 65535 := by omega
    have hbig : ¬ count > 2000 := by omega
    simp [hne, hov, hbig]

/-- Witness for C5: the maximal in-bounds register range (start 65411,
count 125, last address 65535) validates for registers, and the same
range validates for bits. -/
theorem in_bounds_ranges_validate_witness :
    AddressRange.check_validity_for_registers ⟨65411, 125⟩ =
        Except.ok () ∧
    AddressRange.check_validity_for_bits ⟨65411, 125⟩ = Except.ok () :=
  ⟨(in_bounds_ranges_validate 65411 125).1 (by omega),
    (in_bounds_ranges_validate 65411 125).2 (by omega)⟩

/-- C6: the coil-state codec round-trips on the two canonical wire
patterns: `from_bool true` encodes to 0xFF00, `from_bool false` to
0x0000, and decoding those two patterns yields the matching variants. -/
theorem coil_state_round_trip :
    (CoilState.from_bool true).to_u16 = 0xFF00 ∧
    (CoilState.from_bool false).to_u16 = 0x0000 ∧
    CoilState.from_u16 0xFF00 = Except.ok CoilState.On ∧
    CoilState.from_u16 0x0000 = Except.ok CoilState.Off :=
  ⟨rfl, rfl, rfl, rfl⟩

/-- C7: `from_u16 v` returns the unrecognized-state error carrying `v`
exactly when `v` is neither 0xFF00 nor 0x0000, and `v` decodes to the on
state exactly when `v = 0xFF00` — no other nonzero value is treated as
on. -/
theorem from_u16_rejects_unrecognized
    (v : Nat) (h : v < 65536) :
    (CoilState.from_u16 v =
        Except.error (ResponseParseError.UnknownCoilState v) ↔
      (v ≠ 0xFF00 ∧ v ≠ 0x0000)) ∧
    (CoilState.from_u16 v = Except.ok CoilState.On ↔ v = 0xFF00) := by
  unfold CoilState.from_u16 constants.ON constants.OFF
  by_cases hOn : v = 0xFF00
  · simp [hOn]
  · by_cases hOff : v = 0
    · simp [hOff]
    · simp [hOn, hOff]

/-- Witness for C7: the value 1 (nonzero but not the on pattern) decodes
to the unrecognized-state error, not to the on state. -/
theorem from_u16_rejects_unrecognized_witness :
    CoilState.from_u16 1 =
      Except.error (ResponseParseError.UnknownCoilState 1) :=
  ((from_u16_rejects_unrecognized 1 (by omega)).1).2
    ⟨by omega, by omega⟩

/-- C8 counterexample: the claim that every constructed AddressRange
satisfies the invariants is false — `AddressRange::new` performs no
checks, so `new 0 0` is a constructed range whose count is 0, violating
`count > 0`. -/
theorem constructed_range_can_violate_invariants :
    (AddressRange.new 0 0).count = 0 ∧
    ¬ 0 < (AddressRange.new 0 0).count ∧
    (AddressRange.new 0 0).check_validity_for_bits =
      Except.error InvalidRequest.CountOfZero :=
  ⟨rfl, by decide, rfl⟩

/-- C8 (amended): construction enforces nothing, but any AddressRange on
which `check_validity max_count` succeeds satisfies the stated
invariants: `count > 0`, `start + count − 1 ≤ 65535`, and
`count ≤ max_count` (125 at the register call site, 2000 at the bit call
site). -/
theorem validated_range_satisfies_invariants
    (r : AddressRange) (max_count : Nat)
    (h : r.check_validity max_count = Except.ok ()) :
    0 < r.count ∧ r.start + r.count - 1 ≤ 65535 ∧
      r.count ≤ max_count := by
  unfold AddressRange.check_validity at h
  rcases r with ⟨start, count⟩
  by_cases h0 : count = 0
  · simp [h0] at h
  · simp only [h0, if_false] at h
    by_cases hov : start + (count - 1) > 65535
    · simp [hov] at h
    · by_cases hbig : count > max_count
      · simp [hov, hbig] at h
      · show 0 < count ∧ start + count - 1 ≤ 65535 ∧ count ≤ max_count
        refine ⟨by omega, by omega, by omega⟩

/-- Witness for C8 (amended): the range (start 0, count 125) validates
against the register maximum and indeed satisfies all three invariants. -/
theorem validated_range_satisfies_invariants_witness :
    0 < (AddressRange.new 0 125).count ∧
    (AddressRange.new 0 125).start + (AddressRange.new 0 125).count - 1 ≤
      65535 ∧
    (AddressRange.new 0 125).count ≤ AddressRange.MAX_REGISTERS :=
  validated_range_satisfies_invariants (AddressRange.new 0 125)
    AddressRange.MAX_REGISTERS rfl

/-- C9: every `start_request` call (and its `read_coils` wrapper) invokes
the caller-supplied handler exactly once — its spawned task's invocation
trace is the one-element list whose sole entry is the outcome of running
the Session dispatch algorithm on the cloned inner session handle — so
errors reach the handler rather than a synchronous return. -/
theorem handler_invoked_exactly_once
    {Req Resp Request : Type} (S : Service Req Resp Request)
    (cs : CallbackSession) (queue : QueueState Request) (request : Req)
    (outcome : CompletionOutcome Resp) :
    (start_request S cs queue request outcome).1.invocations =
      [(make_service_call S cs.inner queue request outcome).1] ∧
    ∀ (wrap : ServiceRequest AddressRange → Request)
      (range : AddressRange)
      (outcome2 : CompletionOutcome (List (Indexed Bool))),
      (CallbackSession.read_coils wrap cs queue range
          outcome2).1.invocations =
        [(make_service_call (ReadCoils wrap) cs.inner queue range
            outcome2).1] :=
  ⟨rfl, fun _ _ _ => rfl⟩

/-- C10: an 8-bit identifier survives construction and readback
unchanged — `UnitId::new(x).value() = x` — and the default unit id is the
reserved sentinel 0xFF. -/
theorem unit_id_new_value_round_trip
    (x : Nat) (h : x < 256) :
    (UnitId.new x).value = x ∧ UnitId.default.value = 0xFF :=
  ⟨rfl, rfl⟩

/-- Witness for C10: the identifier 42 reads back as 42 and the default
reads back as 0xFF. -/
theorem unit_id_new_value_round_trip_witness :
    (UnitId.new 42).value = 42 ∧ UnitId.default.value = 0xFF :=
  unit_id_new_value_round_trip 42 (by omega)

end Rodbus
